import Mathlib

/-!
Shallow embedding of `app/backend/agents/orchestrator.py` (FoundryIQ Agent
Orchestrator).  The remote SDK (message constructor, `agent.run`, the search
backend) is opaque to the repository's code, so it is modelled by explicit
parameters; every function below mirrors its Python counterpart line by line.

Python attribute conventions used in the embedding:
* an attribute that may be missing or `None` on a response/citation object is
  an `Option`; `getattr(x, "f", None)` conflates missing and `None`, so both
  are `none`;
* Python truthiness on a string field (`if getattr(c, "title", None):`)
  keeps the value exactly when it is a non-`None`, non-empty string
  (`keepTruthy`);
* a value that may or may not be a string (`response.text`,
  `response.content`) is an `Attr`: either a string or some other object
  carried by its `str()` rendering;
* `str(response)` is the `rep` field of `Response`;
* a Python exception is the `error` case of an `Except PyErr`; `TypeError`
  (the only exception the code catches) is `PyErr.typeError`.
-/

namespace Orchestrator

/-- Python's `needle in hay` first-position check: `needle` starts `hay`. -/
def firstMatches : List Char → List Char → Bool
  | [], _ => true
  | _ :: _, [] => false
  | a :: as, b :: bs => a == b && firstMatches as bs

/-- Auxiliary scan for substring containment over character lists. -/
def containsAux (needle : List Char) : List Char → Bool
  | [] => firstMatches needle []
  | b :: bs => firstMatches needle (b :: bs) || containsAux needle bs

/-- Python's `needle in hay` contiguous-substring test on strings. -/
def strContains (hay needle : String) : Bool :=
  containsAux needle.data hay.data

/-- Whitespace stripped by Python's `str.strip()` (ASCII part). -/
def isSpaceChar (c : Char) : Bool :=
  c == ' ' || c == '\t' || c == '\n' || c == '\r' || c == '\x0B' || c == '\x0C'

/-- Drop leading whitespace from a character list. -/
def dropLeading : List Char → List Char
  | [] => []
  | c :: cs => if isSpaceChar c then dropLeading cs else c :: cs

/-- Python's `s.strip()`: remove leading and trailing whitespace. -/
def stripStr (s : String) : String :=
  ⟨(dropLeading (dropLeading s.data).reverse).reverse⟩

/-- Python's `s.lower()` (ASCII case folding). -/
def lowerStr (s : String) : String :=
  ⟨s.data.map Char.toLower⟩

/-- A Python attribute value that may or may not be a string: a string, or
any other object identified by its `str()` rendering. -/
inductive Attr where
  | str (s : String)
  | other (rep : String)
deriving DecidableEq

/-- A `citations` entry (orchestrator.py lines 282-291): optional `title`,
`filepath`, `url`, `chunk_id` attributes. -/
structure Citation where
  title : Option String := none
  filepath : Option String := none
  url : Option String := none
  chunk_id : Option String := none
deriving DecidableEq

/-- A `context` entry (orchestrator.py lines 297-302): optional `title` and
`source` attributes. -/
structure ContextEntry where
  title : Option String := none
  source : Option String := none
deriving DecidableEq

/-- A `grounding_data` entry (orchestrator.py lines 308-313): optional
`title` and `filepath` attributes. -/
structure GroundingEntry where
  title : Option String := none
  filepath : Option String := none
deriving DecidableEq

/-- A raw agent response: the attributes `extract_text` and
`run_single_query` probe for, plus `rep` for `str(response)`. -/
structure Response where
  text : Option Attr := none
  content : Option Attr := none
  rep : String := ""
  citations : Option (List Citation) := none
  context : Option (List ContextEntry) := none
  grounding_data : Option (List GroundingEntry) := none
deriving DecidableEq

/-- `extract_text` (orchestrator.py lines 78-97): `None` gives `""`; a
string `text` attribute is returned verbatim; otherwise a `content`
attribute is returned (stringified when not a string); otherwise
`str(response)`. -/
def extract_text : Option Response → String
  | none => ""
  | some r =>
    match r.text with
    | some (Attr.str s) => s
    | _ =>
      match r.content with
      | some (Attr.str s) => s
      | some (Attr.other rep) => rep
      | none => r.rep

/-- The normalized routing text: `extract_text(response).strip().lower()`
(orchestrator.py line 121). -/
def normalize_route (response : Option Response) : String :=
  lowerStr (stripStr (extract_text response))

/-- `route_query` (orchestrator.py lines 118-130) as a function of the
router service's raw response: keyword classification of the normalized
routing text, first match wins, defaulting to `"hr"`. -/
def route_query (response : Option Response) : String :=
  if strContains (normalize_route response) "hr" then "hr"
  else if strContains (normalize_route response) "marketing"
      || strContains (normalize_route response) "brand"
      || strContains (normalize_route response) "campaign" then "marketing"
  else if strContains (normalize_route response) "product" then "products"
  else "hr"

/-- Python string truthiness on an optional attribute: keep the value
exactly when it is present, non-`None` and non-empty
(`if getattr(x, "f", None): d["f"] = x.f`). -/
def keepTruthy : Option String → Option String
  | none => none
  | some s => if s = "" then none else some s

/-- A source record as built by `run_single_query`: the mandatory `kb` key
plus the optional keys that were added.  A `none` field is an absent key. -/
structure SourceInfo where
  kb : String
  title : Option String := none
  filepath : Option String := none
  url : Option String := none
  chunk_id : Option String := none
deriving DecidableEq

/-- `len(source_info) > 1`: the record has at least one key besides `kb`. -/
def SourceInfo.hasExtra (si : SourceInfo) : Bool :=
  si.title.isSome || si.filepath.isSome || si.url.isSome || si.chunk_id.isSome

/-- `kb_map.get(route, "unknown")` for the table at orchestrator.py lines
224-228. -/
def kb_map (route : String) : String :=
  if route = "hr" then "kb1-hr"
  else if route = "marketing" then "kb2-marketing"
  else if route = "products" then "kb3-products"
  else "unknown"

/-- The record built from one `citations` entry (orchestrator.py lines
283-291): `kb` plus each of `title`, `filepath`, `url`, `chunk_id` that is
truthy on the entry. -/
def citationRecord (kb : String) (c : Citation) : SourceInfo :=
  { kb := kb, title := keepTruthy c.title, filepath := keepTruthy c.filepath,
    url := keepTruthy c.url, chunk_id := keepTruthy c.chunk_id }

/-- The `citations` loop (orchestrator.py lines 282-293): one record per
entry, appended in order, skipping records with no key besides `kb`. -/
def processCitations (kb : String) (cs : List Citation) : List SourceInfo :=
  cs.filterMap fun c =>
    if (citationRecord kb c).hasExtra then some (citationRecord kb c) else none

/-- The record built from one `context` entry (orchestrator.py lines
298-302): `kb`, truthy `title`, and `filepath` taken from the entry's
`source` attribute. -/
def contextRecord (kb : String) (e : ContextEntry) : SourceInfo :=
  { kb := kb, title := keepTruthy e.title, filepath := keepTruthy e.source }

/-- The `context` loop (orchestrator.py lines 297-304). -/
def processContext (kb : String) (es : List ContextEntry) : List SourceInfo :=
  es.filterMap fun e =>
    if (contextRecord kb e).hasExtra then some (contextRecord kb e) else none

/-- The record built from one `grounding_data` entry (orchestrator.py lines
309-315): `kb`, truthy `title` and `filepath`. -/
def groundingRecord (kb : String) (g : GroundingEntry) : SourceInfo :=
  { kb := kb, title := keepTruthy g.title, filepath := keepTruthy g.filepath }

/-- The `grounding_data` loop (orchestrator.py lines 307-315). -/
def processGrounding (kb : String) (gs : List GroundingEntry) : List SourceInfo :=
  gs.filterMap fun g =>
    if (groundingRecord kb g).hasExtra then some (groundingRecord kb g) else none

/-- Records contributed by the `citations` stage: guarded by
`hasattr(response, "citations") and getattr(response, "citations")`
(present and non-empty). -/
def citationSources (r : Response) (kb : String) : List SourceInfo :=
  match r.citations with
  | some cs => if cs.isEmpty then [] else processCitations kb cs
  | none => []

/-- Records contributed by the `context` stage, under the same
truthiness guard. -/
def contextSources (r : Response) (kb : String) : List SourceInfo :=
  match r.context with
  | some es => if es.isEmpty then [] else processContext kb es
  | none => []

/-- Records contributed by the `grounding_data` stage, under the same
truthiness guard. -/
def groundingSources (r : Response) (kb : String) : List SourceInfo :=
  match r.grounding_data with
  | some gs => if gs.isEmpty then [] else processGrounding kb gs
  | none => []

/-- `default_docs.get(route, [...])` (orchestrator.py lines 319-334): the
static per-domain fallback documents. -/
def default_docs (route kb_name : String) : List SourceInfo :=
  if route = "hr" then
    [{ kb := kb_name, title := some "Employee_Handbook.pdf",
       filepath := some "hr-policies/Employee_Handbook.pdf" },
     { kb := kb_name, title := some "PTO_Policy_2024.docx",
       filepath := some "hr-policies/PTO_Policy_2024.docx" },
     { kb := kb_name, title := some "Benefits_Guide.pdf",
       filepath := some "hr-policies/Benefits_Guide.pdf" }]
  else if route = "marketing" then
    [{ kb := kb_name, title := some "Brand_Guidelines.pdf",
       filepath := some "marketing/Brand_Guidelines.pdf" },
     { kb := kb_name, title := some "Campaign_Playbook.pptx",
       filepath := some "marketing/Campaign_Playbook.pptx" }]
  else if route = "products" then
    [{ kb := kb_name, title := some "Product_Catalog_2024.xlsx",
       filepath := some "products/Product_Catalog_2024.xlsx" },
     { kb := kb_name, title := some "Specifications.pdf",
       filepath := some "products/Specifications.pdf" }]
  else
    [{ kb := kb_name, title := some "Knowledge Base", filepath := some kb_name }]

/-- The source-extraction step of `run_single_query` (orchestrator.py lines
277-334): `sources` stays the value set by the first stage that produced a
non-empty list (each later stage runs only under `if not sources`), and the
static defaults are used when every stage produced nothing. -/
def extract_sources (r : Response) (route : String) : List SourceInfo :=
  if (citationSources r (kb_map route)).isEmpty then
    if (contextSources r (kb_map route)).isEmpty then
      if (groundingSources r (kb_map route)).isEmpty then
        default_docs route (kb_map route)
      else groundingSources r (kb_map route)
    else contextSources r (kb_map route)
  else citationSources r (kb_map route)

/-- `run_single_query` (orchestrator.py lines 218-336) as a function of the
router's and the chosen specialist's raw responses: the `(route,
response_text, sources)` triple. -/
def run_single_query (routerResponse specialistResponse : Option Response) :
    String × String × List SourceInfo :=
  (route_query routerResponse,
   extract_text specialistResponse,
   extract_sources (specialistResponse.getD {}) (route_query routerResponse))

/-- A Python exception: `TypeError` (the only kind the module catches) or
any other exception with its message. -/
inductive PyErr where
  | typeError
  | otherError (msg : String)
deriving DecidableEq

/-- A constructed user message: either the structured-content convention
`Message(role="user", content=[Content(text=...)])` or the plain-text
convention `Message(role="user", text=...)`. -/
inductive Msg where
  | structuredContent (text : String)
  | plainText (text : String)
deriving DecidableEq

/-- The opaque `agent_framework` SDK: the two `Message` constructor
conventions and the two `agent.run` calling conventions, each of which may
raise. -/
structure AgentSDK where
  mkStructured : String → Except PyErr Msg
  mkPlain : String → Except PyErr Msg
  runOne : Msg → Except PyErr Response
  runMany : List Msg → Except PyErr Response

/-- `make_user_message` (orchestrator.py lines 62-75): try the
structured-content constructor; on `TypeError` fall back to the plain-text
constructor; any other exception propagates. -/
def make_user_message (sdk : AgentSDK) (text : String) : Except PyErr Msg :=
  match sdk.mkStructured text with
  | Except.ok m => Except.ok m
  | Except.error PyErr.typeError => sdk.mkPlain text
  | Except.error e => Except.error e

/-- `run_agent` (orchestrator.py lines 100-112): build the message, try
`agent.run(msg)`; on `TypeError` retry once as `agent.run([msg])`; any
other exception propagates. -/
def run_agent (sdk : AgentSDK) (text : String) : Except PyErr Response :=
  match make_user_message sdk text with
  | Except.error e => Except.error e
  | Except.ok msg =>
    match sdk.runOne msg with
    | Except.ok r => Except.ok r
    | Except.error PyErr.typeError => sdk.runMany [msg]
    | Except.error e => Except.error e

/-- A concrete SDK supporting only the plain-text message constructor and
only the list-of-messages run convention. -/
def sdkListOnly : AgentSDK where
  mkStructured := fun _ => Except.error PyErr.typeError
  mkPlain := fun t => Except.ok (Msg.plainText t)
  runOne := fun _ => Except.error PyErr.typeError
  runMany := fun _ => Except.ok { text := some (Attr.str "ok") }

/-! ## Helper lemmas -/

/-- A guarded `filterMap` is a `filter` followed by a `map`: one output
record per entry passing the guard, in the entries' order. -/
theorem filterMap_guard_eq {α β : Type} (f : α → β) (p : α → Bool) (l : List α) :
    (l.filterMap fun a => if p a then some (f a) else none) =
      (l.filter fun a => p a).map f := by
  induction l with
  | nil => rfl
  | cons a t ih =>
    by_cases h : p a <;> simp [List.filterMap_cons, List.filter_cons, h, ih]

/-- Any member of a guarded `filterMap` over source records comes from some
entry and passes the guard. -/
theorem mem_guardFilterMap {α : Type} (f : α → SourceInfo) (l : List α)
    (si : SourceInfo)
    (h : si ∈ l.filterMap fun a => if (f a).hasExtra then some (f a) else none) :
    ∃ a ∈ l, f a = si ∧ si.hasExtra = true := by
  rw [List.mem_filterMap] at h
  obtain ⟨a, ha, hfa⟩ := h
  split at hfa
  · cases hfa
    exact ⟨a, ha, rfl, by assumption⟩
  · cases hfa

/-- Every record the `citations` loop emits carries the resolved `kb` and
has a key besides `kb`. -/
theorem mem_processCitations_props (kb : String) (cs : List Citation)
    (si : SourceInfo) (h : si ∈ processCitations kb cs) :
    si.kb = kb ∧ si.hasExtra = true := by
  unfold processCitations at h
  obtain ⟨c, _, heq, hx⟩ := mem_guardFilterMap (citationRecord kb) cs si h
  subst heq
  exact ⟨rfl, hx⟩

/-- Every record the `context` loop emits carries the resolved `kb` and has
a key besides `kb`. -/
theorem mem_processContext_props (kb : String) (es : List ContextEntry)
    (si : SourceInfo) (h : si ∈ processContext kb es) :
    si.kb = kb ∧ si.hasExtra = true := by
  unfold processContext at h
  obtain ⟨e, _, heq, hx⟩ := mem_guardFilterMap (contextRecord kb) es si h
  subst heq
  exact ⟨rfl, hx⟩

/-- Every record the `grounding_data` loop emits carries the resolved `kb`
and has a key besides `kb`. -/
theorem mem_processGrounding_props (kb : String) (gs : List GroundingEntry)
    (si : SourceInfo) (h : si ∈ processGrounding kb gs) :
    si.kb = kb ∧ si.hasExtra = true := by
  unfold processGrounding at h
  obtain ⟨g, _, heq, hx⟩ := mem_guardFilterMap (groundingRecord kb) gs si h
  subst heq
  exact ⟨rfl, hx⟩

/-- Members of the `citations` stage output have a key besides `kb`. -/
theorem mem_citationSources_hasExtra (r : Response) (kb : String)
    (si : SourceInfo) (h : si ∈ citationSources r kb) : si.hasExtra = true := by
  unfold citationSources at h
  split at h
  · split at h
    · simp at h
    · exact (mem_processCitations_props kb _ si h).2
  · simp at h

/-- Members of the `context` stage output have a key besides `kb`. -/
theorem mem_contextSources_hasExtra (r : Response) (kb : String)
    (si : SourceInfo) (h : si ∈ contextSources r kb) : si.hasExtra = true := by
  unfold contextSources at h
  split at h
  · split at h
    · simp at h
    · exact (mem_processContext_props kb _ si h).2
  · simp at h

/-- Members of the `grounding_data` stage output have a key besides `kb`. -/
theorem mem_groundingSources_hasExtra (r : Response) (kb : String)
    (si : SourceInfo) (h : si ∈ groundingSources r kb) : si.hasExtra = true := by
  unfold groundingSources at h
  split at h
  · split at h
    · simp at h
    · exact (mem_processGrounding_props kb _ si h).2
  · simp at h

/-- The static fallback table never returns an empty list. -/
theorem default_docs_ne_nil (route kb_name : String) :
    default_docs route kb_name ≠ [] := by
  unfold default_docs
  split
  · simp
  · split
    · simp
    · split <;> simp

/-- Every static fallback record has a key besides `kb`. -/
theorem mem_default_docs_hasExtra (route kb_name : String) (si : SourceInfo)
    (h : si ∈ default_docs route kb_name) : si.hasExtra = true := by
  unfold default_docs at h
  split at h
  · simp only [List.mem_cons, List.not_mem_nil, or_false] at h
    rcases h with rfl | rfl | rfl <;> rfl
  · split at h
    · simp only [List.mem_cons, List.not_mem_nil, or_false] at h
      rcases h with rfl | rfl <;> rfl
    · split at h
      · simp only [List.mem_cons, List.not_mem_nil, or_false] at h
        rcases h with rfl | rfl <;> rfl
      · simp only [List.mem_cons, List.not_mem_nil, or_false] at h
        rcases h with rfl
        rfl

/-- Every record `extract_sources` returns has a key besides `kb`. -/
theorem mem_extract_sources_hasExtra (r : Response) (route : String)
    (si : SourceInfo) (h : si ∈ extract_sources r route) :
    si.hasExtra = true := by
  unfold extract_sources at h
  split at h
  · split at h
    · split at h
      · exact mem_default_docs_hasExtra route _ si h
      · exact mem_groundingSources_hasExtra r _ si h
    · exact mem_contextSources_hasExtra r _ si h
  · exact mem_citationSources_hasExtra r _ si h

/-! ## Claims -/

/-- C7: for every response object that exposes a field named `text` whose
value is a string, `extract_text` returns that exact string verbatim. -/
theorem C7_extract_text_verbatim (r : Response) (s : String)
    (h : r.text = some (Attr.str s)) : extract_text (some r) = s := by
  simp [extract_text, h]

/-- Witness for C7 at a concrete response. -/
theorem C7_extract_text_verbatim_witness :
    extract_text (some { text := some (Attr.str "hello world") }) = "hello world" :=
  C7_extract_text_verbatim { text := some (Attr.str "hello world") } "hello world" rfl

/-- C8: `extract_text` is total — it is a total function into `String`, a
null input yields the empty string, and an object exposing neither a string
`text` nor a `content` attribute yields its `str()` rendering. -/
theorem C8_extract_text_total :
    extract_text none = "" ∧
    (∀ resp : Option Response, ∃ s : String, extract_text resp = s) ∧
    (∀ r : Response, r.text = none → r.content = none →
      extract_text (some r) = r.rep) := by
  refine ⟨rfl, fun resp => ⟨extract_text resp, rfl⟩, ?_⟩
  intro r h1 h2
  simp [extract_text, h1, h2]

/-- Witness for C8 at a concrete shapeless response. -/
theorem C8_extract_text_total_witness :
    extract_text (some { rep := "<object repr>" }) = "<object repr>" :=
  C8_extract_text_total.2.2 { rep := "<object repr>" } rfl rfl

/-- C1: `route_query` normalizes the extracted text by trimming and
lower-casing and classifies it first-match-wins: a text containing `"hr"`
routes to `"hr"` even when the other keywords also occur; otherwise
`"marketing"`/`"brand"`/`"campaign"` route to `"marketing"`; otherwise
`"product"` routes to `"products"`; otherwise the default is `"hr"`. -/
theorem C1_route_query_first_match (resp : Option Response) :
    normalize_route resp = lowerStr (stripStr (extract_text resp)) ∧
    (strContains (normalize_route resp) "hr" = true → route_query resp = "hr") ∧
    (strContains (normalize_route resp) "hr" = false →
      (strContains (normalize_route resp) "marketing" = true ∨
        strContains (normalize_route resp) "brand" = true ∨
        strContains (normalize_route resp) "campaign" = true) →
      route_query resp = "marketing") ∧
    (strContains (normalize_route resp) "hr" = false →
      strContains (normalize_route resp) "marketing" = false →
      strContains (normalize_route resp) "brand" = false →
      strContains (normalize_route resp) "campaign" = false →
      strContains (normalize_route resp) "product" = true →
      route_query resp = "products") ∧
    (strContains (normalize_route resp) "hr" = false →
      strContains (normalize_route resp) "marketing" = false →
      strContains (normalize_route resp) "brand" = false →
      strContains (normalize_route resp) "campaign" = false →
      strContains (normalize_route resp) "product" = false →
      route_query resp = "hr") := by
  refine ⟨rfl, ?_, ?_, ?_, ?_⟩
  · intro h
    simp [route_query, h]
  · intro h hm
    rcases hm with hm | hm | hm <;> simp [route_query, h, hm]
  · intro h1 h2 h3 h4 h5
    simp [route_query, h1, h2, h3, h4, h5]
  · intro h1 h2 h3 h4 h5
    simp [route_query, h1, h2, h3, h4, h5]

/-- Witness for C1: a routing text containing both `"hr"` and `"campaign"`
routes to `"hr"`. -/
theorem C1_route_query_first_match_witness :
    strContains
      (normalize_route (some { text := some (Attr.str " HR or campaign? ") }))
      "hr" = true ∧
    route_query (some { text := some (Attr.str " HR or campaign? ") }) = "hr" :=
  ⟨by decide,
    (C1_route_query_first_match
      (some { text := some (Attr.str " HR or campaign? ") })).2.1 (by decide)⟩

/-- C2: source extraction consults citations, then context, then
grounding_data, then the static defaults, in strict priority order, and
stops at the first stage that yields at least one record: whenever an
earlier stage produced a record, no later stage contributes anything. -/
theorem C2_source_priority_order (r : Response) (route : String) :
    (citationSources r (kb_map route) ≠ [] →
      extract_sources r route = citationSources r (kb_map route)) ∧
    (citationSources r (kb_map route) = [] →
      contextSources r (kb_map route) ≠ [] →
      extract_sources r route = contextSources r (kb_map route)) ∧
    (citationSources r (kb_map route) = [] →
      contextSources r (kb_map route) = [] →
      groundingSources r (kb_map route) ≠ [] →
      extract_sources r route = groundingSources r (kb_map route)) ∧
    (citationSources r (kb_map route) = [] →
      contextSources r (kb_map route) = [] →
      groundingSources r (kb_map route) = [] →
      extract_sources r route = default_docs route (kb_map route)) := by
  refine ⟨?_, ?_, ?_, ?_⟩ <;> intros <;>
    simp_all [extract_sources, List.isEmpty_iff]

/-- Witness for C2: with both a non-trivial citation and a non-trivial
context entry present, only the citations stage contributes. -/
theorem C2_source_priority_order_witness :
    citationSources
      { citations := some [{ title := some "A.pdf" }],
        context := some [{ title := some "B.pdf" }] } (kb_map "hr") ≠ [] ∧
    extract_sources
      { citations := some [{ title := some "A.pdf" }],
        context := some [{ title := some "B.pdf" }] } "hr" =
      citationSources
        { citations := some [{ title := some "A.pdf" }],
          context := some [{ title := some "B.pdf" }] } (kb_map "hr") :=
  ⟨by decide, (C2_source_priority_order _ "hr").1 (by decide)⟩

/-- C3: when citations, context and grounding_data are all absent or empty,
the sources are the fixed non-empty per-domain fallback list; for the
`"hr"` route they are exactly the three static HR documents, so the caller
always receives at least one source record. -/
theorem C3_static_fallback (r : Response) (route : String)
    (hc : r.citations = none ∨ r.citations = some [])
    (hx : r.context = none ∨ r.context = some [])
    (hg : r.grounding_data = none ∨ r.grounding_data = some []) :
    extract_sources r route = default_docs route (kb_map route) ∧
    extract_sources r route ≠ [] ∧
    (route = "hr" →
      extract_sources r route =
        [{ kb := "kb1-hr", title := some "Employee_Handbook.pdf",
           filepath := some "hr-policies/Employee_Handbook.pdf" },
         { kb := "kb1-hr", title := some "PTO_Policy_2024.docx",
           filepath := some "hr-policies/PTO_Policy_2024.docx" },
         { kb := "kb1-hr", title := some "Benefits_Guide.pdf",
           filepath := some "hr-policies/Benefits_Guide.pdf" }]) := by
  have h1 : citationSources r (kb_map route) = [] := by
    rcases hc with h | h <;> simp [citationSources, h]
  have h2 : contextSources r (kb_map route) = [] := by
    rcases hx with h | h <;> simp [contextSources, h]
  have h3 : groundingSources r (kb_map route) = [] := by
    rcases hg with h | h <;> simp [groundingSources, h]
  have hmain : extract_sources r route = default_docs route (kb_map route) := by
    simp [extract_sources, h1, h2, h3]
  refine ⟨hmain, hmain ▸ default_docs_ne_nil route (kb_map route), ?_⟩
  intro hroute
  subst hroute
  rw [hmain]
  rfl

/-- Witness for C3 at a response with no grounding attributes at all. -/
theorem C3_static_fallback_witness :
    extract_sources {} "hr" =
      [{ kb := "kb1-hr", title := some "Employee_Handbook.pdf",
         filepath := some "hr-policies/Employee_Handbook.pdf" },
       { kb := "kb1-hr", title := some "PTO_Policy_2024.docx",
         filepath := some "hr-policies/PTO_Policy_2024.docx" },
       { kb := "kb1-hr", title := some "Benefits_Guide.pdf",
         filepath := some "hr-policies/Benefits_Guide.pdf" }] :=
  (C3_static_fallback {} "hr" (Or.inl rfl) (Or.inl rfl) (Or.inl rfl)).2.2 rfl

/-- C4: every emitted source record has at least one key besides `kb`, and
an entry of any of the three sequences whose optional fields are all null
contributes zero records. -/
theorem C4_records_never_kb_only (r : Response) (route : String) :
    (∀ si ∈ extract_sources r route, si.hasExtra = true) ∧
    (∀ (kb : String) (c : Citation) (cs : List Citation),
      c.title = none → c.filepath = none → c.url = none → c.chunk_id = none →
      processCitations kb (c :: cs) = processCitations kb cs) ∧
    (∀ (kb : String) (e : ContextEntry) (es : List ContextEntry),
      e.title = none → e.source = none →
      processContext kb (e :: es) = processContext kb es) ∧
    (∀ (kb : String) (g : GroundingEntry) (gs : List GroundingEntry),
      g.title = none → g.filepath = none →
      processGrounding kb (g :: gs) = processGrounding kb gs) := by
  refine ⟨fun si h => mem_extract_sources_hasExtra r route si h, ?_, ?_, ?_⟩
  · intro kb c cs h1 h2 h3 h4
    simp [processCitations, List.filterMap_cons, citationRecord, keepTruthy,
      SourceInfo.hasExtra, h1, h2, h3, h4]
  · intro kb e es h1 h2
    simp [processContext, List.filterMap_cons, contextRecord, keepTruthy,
      SourceInfo.hasExtra, h1, h2]
  · intro kb g gs h1 h2
    simp [processGrounding, List.filterMap_cons, groundingRecord, keepTruthy,
      SourceInfo.hasExtra, h1, h2]

/-- Witness for C4: a fallback record has an extra key, and an all-null
citation entry contributes nothing. -/
theorem C4_records_never_kb_only_witness :
    ({ kb := "kb1-hr", title := some "Employee_Handbook.pdf",
       filepath := some "hr-policies/Employee_Handbook.pdf" } : SourceInfo).hasExtra
      = true ∧
    processCitations "kb1-hr" [{}] = processCitations "kb1-hr" [] :=
  ⟨(C4_records_never_kb_only {} "hr").1 _ (by decide),
   (C4_records_never_kb_only {} "hr").2.1 "kb1-hr" {} [] rfl rfl rfl rfl⟩

/-- C5 counterexample: a citation whose `title` is present and non-null but
equal to the empty string is NOT copied into the record (Python truthiness
drops it), refuting the claim as stated. -/
theorem C5_counterexample_empty_string :
    ({ title := some "", filepath := some "doc.pdf" } : Citation).title
      = some "" ∧
    processCitations "kb1-hr" [{ title := some "", filepath := some "doc.pdf" }] =
      [{ kb := "kb1-hr", filepath := some "doc.pdf" }] :=
  ⟨rfl, by decide⟩

/-- C5 (amended): for every citations entry, each of `title`, `filepath`,
`url`, `chunk_id` that is present with a non-null, non-empty value is
copied verbatim into the resulting record alongside `kb`; the record is
emitted whenever it has a key besides `kb`. -/
theorem C5_truthy_fields_copied (kb : String) (c : Citation) :
    (citationRecord kb c).kb = kb ∧
    (∀ s : String, s ≠ "" → c.title = some s →
      (citationRecord kb c).title = some s) ∧
    (∀ s : String, s ≠ "" → c.filepath = some s →
      (citationRecord kb c).filepath = some s) ∧
    (∀ s : String, s ≠ "" → c.url = some s →
      (citationRecord kb c).url = some s) ∧
    (∀ s : String, s ≠ "" → c.chunk_id = some s →
      (citationRecord kb c).chunk_id = some s) ∧
    ((citationRecord kb c).hasExtra = true →
      processCitations kb [c] = [citationRecord kb c]) := by
  refine ⟨rfl, ?_, ?_, ?_, ?_, ?_⟩
  · intro s hs h
    simp [citationRecord, keepTruthy, h, hs]
  · intro s hs h
    simp [citationRecord, keepTruthy, h, hs]
  · intro s hs h
    simp [citationRecord, keepTruthy, h, hs]
  · intro s hs h
    simp [citationRecord, keepTruthy, h, hs]
  · intro h
    simp [processCitations, List.filterMap_cons, h]

/-- Witness for C5 (amended) at a concrete non-empty title. -/
theorem C5_truthy_fields_copied_witness :
    (citationRecord "kb1-hr" { title := some "Doc.pdf" }).title = some "Doc.pdf" :=
  (C5_truthy_fields_copied "kb1-hr" { title := some "Doc.pdf" }).2.1
    "Doc.pdf" (by decide) rfl

/-- C6: the domain-to-knowledge-base table is hr→kb1-hr,
marketing→kb2-marketing, products→kb3-products, any other label →
"unknown", and every citations-derived record carries the mapped
identifier in its `kb` field. -/
theorem C6_kb_mapping :
    kb_map "hr" = "kb1-hr" ∧
    kb_map "marketing" = "kb2-marketing" ∧
    kb_map "products" = "kb3-products" ∧
    (∀ route : String, route ≠ "hr" → route ≠ "marketing" →
      route ≠ "products" → kb_map route = "unknown") ∧
    (∀ (route : String) (cs : List Citation) (si : SourceInfo),
      si ∈ processCitations (kb_map route) cs → si.kb = kb_map route) := by
  refine ⟨rfl, rfl, rfl, ?_, ?_⟩
  · intro route h1 h2 h3
    simp [kb_map, h1, h2, h3]
  · intro route cs si h
    exact (mem_processCitations_props (kb_map route) cs si h).1

/-- Witness for C6: an unrecognized label maps to "unknown" and a concrete
citations-derived record carries the mapped identifier. -/
theorem C6_kb_mapping_witness :
    kb_map "finance" = "unknown" ∧
    ({ kb := "kb1-hr", title := some "A.pdf" } : SourceInfo).kb = kb_map "hr" :=
  ⟨C6_kb_mapping.2.2.2.1 "finance" (by decide) (by decide) (by decide),
   C6_kb_mapping.2.2.2.2 "hr" [{ title := some "A.pdf" }] _ (by decide)⟩

/-- C10: each of the three sequence-derived stages yields exactly one
record per non-trivial entry, in the same relative order as the entries:
it equals a `filter` of the non-trivial entries followed by a `map`. -/
theorem C10_one_record_per_entry (kb : String) (r : Response) :
    (∀ cs : List Citation, r.citations = some cs →
      citationSources r kb =
        (cs.filter fun c => (citationRecord kb c).hasExtra).map
          (citationRecord kb)) ∧
    (∀ es : List ContextEntry, r.context = some es →
      contextSources r kb =
        (es.filter fun e => (contextRecord kb e).hasExtra).map
          (contextRecord kb)) ∧
    (∀ gs : List GroundingEntry, r.grounding_data = some gs →
      groundingSources r kb =
        (gs.filter fun g => (groundingRecord kb g).hasExtra).map
          (groundingRecord kb)) := by
  refine ⟨?_, ?_, ?_⟩
  · intro cs hcs
    simp only [citationSources, hcs]
    by_cases he : cs.isEmpty = true
    · rw [List.isEmpty_iff] at he
      subst he
      simp
    · simp only [if_neg he]
      exact filterMap_guard_eq (citationRecord kb) _ cs
  · intro es hes
    simp only [contextSources, hes]
    by_cases he : es.isEmpty = true
    · rw [List.isEmpty_iff] at he
      subst he
      simp
    · simp only [if_neg he]
      exact filterMap_guard_eq (contextRecord kb) _ es
  · intro gs hgs
    simp only [groundingSources, hgs]
    by_cases he : gs.isEmpty = true
    · rw [List.isEmpty_iff] at he
      subst he
      simp
    · simp only [if_neg he]
      exact filterMap_guard_eq (groundingRecord kb) _ gs

/-- Witness for C10: a two-entry citations list with one trivial entry
yields exactly the one record for the non-trivial entry. -/
theorem C10_one_record_per_entry_witness :
    citationSources { citations := some [{ title := some "A.pdf" }, {}] } "kb1-hr" =
      ([{ title := some "A.pdf" }, {}].filter fun c =>
          (citationRecord "kb1-hr" c).hasExtra).map (citationRecord "kb1-hr") :=
  (C10_one_record_per_entry "kb1-hr"
    { citations := some [{ title := some "A.pdf" }, {}] }).1 _ rfl

/-- C9: `run_agent` first attempts the single-message convention and
retries with the one-element-list convention exactly when that attempt
fails with `TypeError`; a recovered mismatch is never surfaced (the caller
sees the fallback's successful result), any non-`TypeError` failure is
surfaced without retry, and `make_user_message` follows the same
first-then-fallback pattern for message construction. -/
theorem C9_fallback_retry (sdk : AgentSDK) (text : String) :
    (∀ m : Msg, sdk.mkStructured text = Except.ok m →
      make_user_message sdk text = Except.ok m) ∧
    (sdk.mkStructured text = Except.error PyErr.typeError →
      make_user_message sdk text = sdk.mkPlain text) ∧
    (∀ msg : Msg, make_user_message sdk text = Except.ok msg →
      (∀ r : Response, sdk.runOne msg = Except.ok r →
        run_agent sdk text = Except.ok r) ∧
      (sdk.runOne msg = Except.error PyErr.typeError →
        run_agent sdk text = sdk.runMany [msg]) ∧
      (∀ r : Response, sdk.runOne msg = Except.error PyErr.typeError →
        sdk.runMany [msg] = Except.ok r → run_agent sdk text = Except.ok r) ∧
      (∀ m : String, sdk.runOne msg = Except.error (PyErr.otherError m) →
        run_agent sdk text = Except.error (PyErr.otherError m))) := by
  refine ⟨?_, ?_, ?_⟩
  · intro m h
    simp [make_user_message, h]
  · intro h
    simp [make_user_message, h]
  · intro msg hmsg
    refine ⟨?_, ?_, ?_, ?_⟩
    · intro r h
      simp [run_agent, hmsg, h]
    · intro h
      simp [run_agent, hmsg, h]
    · intro r h1 h2
      simp [run_agent, hmsg, h1, h2]
    · intro m h
      simp [run_agent, hmsg, h]

/-- Witness for C9: with `sdkListOnly` both fallbacks fire and the caller
sees the successful result. -/
theorem C9_fallback_retry_witness :
    make_user_message sdkListOnly "hi" = Except.ok (Msg.plainText "hi") ∧
    run_agent sdkListOnly "hi" = Except.ok { text := some (Attr.str "ok") } := by
  have h := C9_fallback_retry sdkListOnly "hi"
  have h1 : make_user_message sdkListOnly "hi" = Except.ok (Msg.plainText "hi") := by
    have := h.2.1 rfl
    simpa [sdkListOnly] using this
  have h2 := (h.2.2 (Msg.plainText "hi") h1).2.2.1
    { text := some (Attr.str "ok") } rfl rfl
  exact ⟨h1, h2⟩

end Orchestrator
